import Mathlib

/-!
Verification of the cross-impact-mapper application (src/app.py).

The application keeps an editable table of factors, coerces the two score
columns to numbers, drops rows with missing values, classifies every
surviving row into one of four quadrants relative to configurable centre
thresholds, plots the classified rows, and exports them as CSV.

Numeric scores are embedded as rationals (the Python code treats them as
real numbers; all comparisons in the source are exact order comparisons).
Quadrant labels are embedded as the strings the source returns.
-/

/-- Embedding of classify_quadrant (src/app.py lines 143 to 153):
if x < x0 and y > y0 return Active; elif x >= x0 and y > y0 return
Critical; elif x >= x0 and y <= y0 return Passive; else return Inactive. -/
def classify_quadrant (x y x0 y0 : ℚ) : String :=
  if x < x0 ∧ y > y0 then "Active"
  else if x ≥ x0 ∧ y > y0 then "Critical"
  else if x ≥ x0 ∧ y ≤ y0 then "Passive"
  else "Inactive"

/-- A raw cell of a score column as it comes out of the editable table:
a number, free-form text, or a missing value (None / NaN). -/
inductive Cell where
  | num (q : ℚ)
  | text (s : String)
  | null
deriving DecidableEq, Repr

/-- Fold a list of decimal digit characters into a natural number. -/
def natOfDigits (cs : List Char) : Nat :=
  cs.foldl (fun a c => a * 10 + (c.toNat - 48)) 0

/-- Parse an unsigned decimal numeral, digits optionally followed by a
decimal point and further digits, as pandas accepts for numeric strings. -/
def parseUnsigned (cs : List Char) : Option ℚ :=
  let intPart := cs.takeWhile Char.isDigit
  let rest := cs.dropWhile Char.isDigit
  match rest with
  | [] => if intPart.isEmpty then none else some ((natOfDigits intPart : ℚ))
  | c :: frac =>
    if c = '.' ∧ frac.all Char.isDigit ∧ (intPart ≠ [] ∨ frac ≠ []) then
      some ((natOfDigits intPart : ℚ) + (natOfDigits frac : ℚ) / (10 : ℚ) ^ frac.length)
    else none

/-- Parse a signed decimal numeral string to a rational. -/
def parseNumeric (s : String) : Option ℚ :=
  match s.data with
  | [] => none
  | '-' :: cs => (parseUnsigned cs).map Neg.neg
  | '+' :: cs => parseUnsigned cs
  | cs => parseUnsigned cs

/-- Embedding of pd.to_numeric with errors="coerce" applied to one cell
(src/app.py line 136): numbers pass through, numeric text is parsed,
anything else becomes a missing value. -/
def toNumeric : Cell → Option ℚ
  | .num q => some q
  | .text s => parseNumeric s
  | .null => none

/-- A row of the editable store before coercion and filtering: the Factor
cell may be missing, the two score cells are raw cells. -/
structure RawRow where
  factor : Option String
  dependence : Cell
  influence : Cell
deriving DecidableEq, Repr

/-- A row that survived coercion and dropna: a name and two numeric scores. -/
structure Record where
  factor : String
  dependence : ℚ
  influence : ℚ
deriving DecidableEq, Repr

/-- Coerce one raw row (src/app.py lines 135 to 138): the row survives
exactly when the Factor cell is present and both scores coerce to numbers.
Note that dropna drops only missing values: an empty string name is kept. -/
def coerceRow (r : RawRow) : Option Record :=
  match r.factor with
  | none => none
  | some f =>
    match toNumeric r.dependence with
    | none => none
    | some d =>
      match toNumeric r.influence with
      | none => none
      | some i => some ⟨f, d, i⟩

/-- Embedding of the coercion and dropna filtering step
(src/app.py lines 135 to 138) over the whole table. -/
def filterRows (rows : List RawRow) : List Record :=
  rows.filterMap coerceRow

/-- A classified record: the record plus its derived Quadrant column
(src/app.py lines 156 to 161). -/
structure ClassifiedRecord where
  factor : String
  dependence : ℚ
  influence : ℚ
  quadrant : String
deriving DecidableEq, Repr

/-- Classify one filtered record, as data.apply with classify_quadrant
does per row (src/app.py lines 157 to 159). -/
def classifyRow (x0 y0 : ℚ) (r : Record) : ClassifiedRecord :=
  ⟨r.factor, r.dependence, r.influence, classify_quadrant r.dependence r.influence x0 y0⟩

/-- The classified table: one classified record per filtered record,
in table order (src/app.py lines 156 to 161). -/
def classifyTable (rows : List Record) (x0 y0 : ℚ) : List ClassifiedRecord :=
  rows.map (classifyRow x0 y0)

/-- Chart gating (src/app.py line 208): the scatter chart is produced
exactly when the filtered table is non-empty. -/
def chartProduced (rows : List Record) : Bool :=
  !rows.isEmpty

/-- Placeholder gating (src/app.py line 209): the info message replaces
the chart exactly when the filtered table is empty. -/
def placeholderShown (rows : List Record) : Bool :=
  rows.isEmpty

/-- The plotted point set (src/app.py lines 208 to 225): empty when the
filtered table is empty, otherwise one point per classified record. -/
def plottedPoints (rows : List Record) (x0 y0 : ℚ) : List ClassifiedRecord :=
  if rows.isEmpty then [] else classifyTable rows x0 y0

/-- Python str.strip on a character list: drop leading and trailing
whitespace. -/
def stripChars (cs : List Char) : List Char :=
  ((cs.dropWhile Char.isWhitespace).reverse.dropWhile Char.isWhitespace).reverse

/-- Python str.strip on a string: drop leading and trailing whitespace,
as reflection.strip() does in the export gate (src/app.py line 297). -/
def stripText (s : String) : String :=
  ⟨stripChars s.data⟩

/-- Export gating (src/app.py line 297): downloads are offered unless the
filtered table is empty and the stripped reflection text is empty. -/
def exportOffered (rows : List Record) (reflection : String) : Bool :=
  !(rows.isEmpty && (stripText reflection == ""))

/-- Render a score for CSV output; integral rationals print as integers,
matching to_csv output for the integer-valued example data. -/
def renderScore (q : ℚ) : String :=
  if q.den = 1 then toString q.num else toString q

/-- The CSV header produced by export_data.to_csv after the Scenario
column is inserted at position 0 (src/app.py lines 301 to 304). -/
def exportHeader : List String :=
  ["Scenario", "Factor", "Dependence", "Influence", "Quadrant"]

/-- One CSV data row (src/app.py lines 301 to 304): the scenario label,
the factor name, the two scores and the Quadrant value of the row. -/
def exportRow (scenario : String) (x0 y0 : ℚ) (r : Record) : List String :=
  [scenario, r.factor, renderScore r.dependence, renderScore r.influence,
   classify_quadrant r.dependence r.influence x0 y0]

/-- The exported CSV as a list of cell rows: the header followed by one
data row per filtered record, in table order (src/app.py lines 301 to 304). -/
def exportRows (scenario : String) (x0 y0 : ℚ) (rows : List Record) : List (List String) :=
  exportHeader :: rows.map (exportRow scenario x0 y0)

/-- The exported CSV as a string: comma-joined cells, newline-joined rows,
with a trailing newline as to_csv produces. -/
def exportCsvString (scenario : String) (x0 y0 : ℚ) (rows : List Record) : String :=
  String.intercalate "\n" ((exportRows scenario x0 y0 rows).map (String.intercalate ",")) ++ "\n"

/-- The example table from the specification: rows A, B, C, D. -/
def exampleRecords : List Record :=
  [⟨"A", -5, 13⟩, ⟨"B", 8, 11⟩, ⟨"C", 9, 13⟩, ⟨"D", 7, -3⟩]

/-- C1: for every dependence d, influence i and centres cx, cy,
classify_quadrant returns Active when d < cx and i > cy, Critical when
d >= cx and i > cy, Passive when d >= cx and i <= cy, and Inactive when
d < cx and i <= cy. -/
theorem C1_classify_cases (d i cx cy : ℚ) :
    (d < cx → i > cy → classify_quadrant d i cx cy = "Active") ∧
    (d ≥ cx → i > cy → classify_quadrant d i cx cy = "Critical") ∧
    (d ≥ cx → i ≤ cy → classify_quadrant d i cx cy = "Passive") ∧
    (d < cx → i ≤ cy → classify_quadrant d i cx cy = "Inactive") := by
  refine ⟨fun h1 h2 => ?_, fun h1 h2 => ?_, fun h1 h2 => ?_, fun h1 h2 => ?_⟩
  · simp [classify_quadrant, h1, h2]
  · simp [classify_quadrant, h1, h2, not_lt.mpr h1]
  · simp [classify_quadrant, h1, not_lt.mpr h1, not_lt.mpr h2]
  · simp [classify_quadrant, h1, not_le.mpr h1, not_lt.mpr h2]

/-- C1 witness: the four cases at concrete inputs. -/
theorem C1_classify_cases_witness :
    classify_quadrant (-1) 1 0 0 = "Active" ∧
    classify_quadrant 1 1 0 0 = "Critical" ∧
    classify_quadrant 1 (-1) 0 0 = "Passive" ∧
    classify_quadrant (-1) (-1) 0 0 = "Inactive" :=
  ⟨(C1_classify_cases (-1) 1 0 0).1 (by norm_num) (by norm_num),
   (C1_classify_cases 1 1 0 0).2.1 (by norm_num) (by norm_num),
   (C1_classify_cases 1 (-1) 0 0).2.2.1 (by norm_num) (by norm_num),
   (C1_classify_cases (-1) (-1) 0 0).2.2.2 (by norm_num) (by norm_num)⟩

/-- C4: classify_quadrant is total: it is a Lean function on all rational
inputs, so it returns exactly one value, and that value is always one of
the four labels Active, Critical, Passive, Inactive. -/
theorem C4_classify_total (d i cx cy : ℚ) :
    classify_quadrant d i cx cy ∈ (["Active", "Critical", "Passive", "Inactive"] : List String) := by
  unfold classify_quadrant
  split <;> [skip; split <;> [skip; split]] <;> simp

/-- C5: boundary tie-breaking: on the influence centreline the result is
Passive or Inactive, on the dependence centreline it is Critical or
Passive, and the four spelled-out boundary points classify as stated. -/
theorem C5_boundaries :
    (∀ d cx cy : ℚ, classify_quadrant d cy cx cy = "Passive" ∨
        classify_quadrant d cy cx cy = "Inactive") ∧
    (∀ i cx cy : ℚ, classify_quadrant cx i cx cy = "Critical" ∨
        classify_quadrant cx i cx cy = "Passive") ∧
    (∀ cx cy : ℚ, classify_quadrant cx cy cx cy = "Passive") ∧
    (∀ cx cy : ℚ, classify_quadrant (cx - 1) cy cx cy = "Inactive") ∧
    (∀ cx cy : ℚ, classify_quadrant cx (cy + 1) cx cy = "Critical") ∧
    (∀ cx cy : ℚ, classify_quadrant (cx - 1) (cy + 1) cx cy = "Active") := by
  refine ⟨fun d cx cy => ?_, fun i cx cy => ?_, fun cx cy => ?_, fun cx cy => ?_,
    fun cx cy => ?_, fun cx cy => ?_⟩
  · rcases lt_or_ge d cx with h | h
    · right; simp [classify_quadrant, h, lt_irrefl, not_lt.mpr h.le]
    · left; simp [classify_quadrant, h, lt_irrefl, not_lt.mpr h]
  · rcases le_or_lt i cy with h | h
    · right; simp [classify_quadrant, h, lt_irrefl, not_lt.mpr h]
    · left; simp [classify_quadrant, h, lt_irrefl]
  · simp [classify_quadrant, lt_irrefl]
  · simp [classify_quadrant, lt_irrefl]
  · simp [classify_quadrant, lt_irrefl]
  · simp [classify_quadrant]

/-- C6: the example rows A, B, C, D with centre (0, 0) classify as
Active, Critical, Critical, Passive respectively. -/
theorem C6_example_classification :
    (classifyTable exampleRecords 0 0).map ClassifiedRecord.quadrant =
      ["Active", "Critical", "Critical", "Passive"] := by
  decide

/-- C9: translation invariance: shifting a point and the centre by the
same offsets leaves the quadrant unchanged, and the quadrant depends only
on the differences d - cx and i - cy. -/
theorem C9_translation_invariance (d i cx cy t s : ℚ) :
    classify_quadrant (d + t) (i + s) (cx + t) (cy + s) = classify_quadrant d i cx cy ∧
    classify_quadrant d i cx cy = classify_quadrant (d - cx) (i - cy) 0 0 := by
  constructor
  · simp [classify_quadrant, add_lt_add_iff_right, add_le_add_iff_right, ge_iff_le, gt_iff_lt]
  · simp [classify_quadrant, sub_neg, sub_pos, sub_nonneg, sub_nonpos, ge_iff_le, gt_iff_lt]

/-- C3: export is offered iff the filtered record set is non-empty or the
stripped reflection is non-empty; with an empty filtered set and blank
reflection no export is offered; with an empty filtered set no chart is
produced, the placeholder is shown and the plotted set is empty. -/
theorem C3_export_and_chart_gating :
    (∀ (rows : List Record) (rtext : String),
        exportOffered rows rtext = true ↔ (rows ≠ [] ∨ stripText rtext ≠ "")) ∧
    (∀ rows : List Record, chartProduced rows = true ↔ rows ≠ []) ∧
    (∀ rows : List Record, placeholderShown rows = true ↔ rows = []) ∧
    (∀ x0 y0 : ℚ, plottedPoints [] x0 y0 = []) := by
  refine ⟨fun rows rtext => ?_, fun rows => ?_, fun rows => ?_, fun x0 y0 => ?_⟩
  · simp [exportOffered, List.isEmpty_iff, not_and_or]
  · simp [chartProduced, List.isEmpty_iff]
  · simp [placeholderShown, List.isEmpty_iff]
  · simp [plottedPoints]

/-- C3 witness: gating evaluated through the theorem at concrete inputs. -/
theorem C3_export_and_chart_gating_witness :
    exportOffered [] "  hello " = true ∧
    exportOffered [⟨"A", 1, 2⟩] "" = true ∧
    chartProduced [⟨"A", 1, 2⟩] = true :=
  ⟨(C3_export_and_chart_gating.1 [] "  hello ").mpr (Or.inr (by decide)),
   (C3_export_and_chart_gating.1 [⟨"A", 1, 2⟩] "").mpr (Or.inl (by simp)),
   (C3_export_and_chart_gating.2.1 [⟨"A", 1, 2⟩]).mpr (by simp)⟩

/-- C7: the exported CSV is the header Scenario, Factor, Dependence,
Influence, Quadrant (the Factor, Dependence, Influence, Quadrant header
prefixed by the Scenario column, whose label always exists), followed by
exactly one data row per filtered record, in table order; the row at
position k + 1 is the export row of the record at position k. -/
theorem C7_export_shape (scenario : String) (x0 y0 : ℚ) (rows : List Record) :
    (exportRows scenario x0 y0 rows).length = rows.length + 1 ∧
    (exportRows scenario x0 y0 rows).head? =
      some ("Scenario" :: ["Factor", "Dependence", "Influence", "Quadrant"]) ∧
    ((exportRows scenario x0 y0 rows).map (String.intercalate ","))[0]? =
      some "Scenario,Factor,Dependence,Influence,Quadrant" ∧
    (∀ k : ℕ, (exportRows scenario x0 y0 rows)[k + 1]? =
      (rows[k]?).map fun r =>
        [scenario, r.factor, renderScore r.dependence, renderScore r.influence,
         classify_quadrant r.dependence r.influence x0 y0]) := by
  refine ⟨by simp [exportRows], by simp [exportRows, exportHeader], ?_, fun k => ?_⟩
  · simp [exportRows, exportHeader]
    rfl
  · simp [exportRows, exportRow]
    rfl

/-- C10: the quadrant of a row is a function of its scores and the two
thresholds only: the classified table assigns to position i exactly
classify_quadrant of the scores at position i, and any two rows with
equal scores, at any positions of any two tables, get equal quadrants. -/
theorem C10_name_noninterference :
    (∀ (rows : List Record) (x0 y0 : ℚ) (k : ℕ),
        ((classifyTable rows x0 y0)[k]?).map ClassifiedRecord.quadrant =
          (rows[k]?).map fun r => classify_quadrant r.dependence r.influence x0 y0) ∧
    (∀ (rows1 rows2 : List Record) (x0 y0 : ℚ) (k1 k2 : ℕ) (r1 r2 : Record),
        rows1[k1]? = some r1 → rows2[k2]? = some r2 →
        r1.dependence = r2.dependence → r1.influence = r2.influence →
        ((classifyTable rows1 x0 y0)[k1]?).map ClassifiedRecord.quadrant =
          ((classifyTable rows2 x0 y0)[k2]?).map ClassifiedRecord.quadrant) := by
  have key : ∀ (rows : List Record) (x0 y0 : ℚ) (k : ℕ),
      ((classifyTable rows x0 y0)[k]?).map ClassifiedRecord.quadrant =
        (rows[k]?).map fun r => classify_quadrant r.dependence r.influence x0 y0 := by
    intro rows x0 y0 k
    simp [classifyTable, classifyRow]
    rfl
  refine ⟨key, fun rows1 rows2 x0 y0 k1 k2 r1 r2 h1 h2 hd hi => ?_⟩
  rw [key, key, h1, h2]
  simp [hd, hi]

/-- C10 witness: two tables with different names, positions and company,
equal scores at the chosen positions, equal quadrants. -/
theorem C10_name_noninterference_witness :
    ((classifyTable [⟨"A", 3, 4⟩] 0 0)[0]?).map ClassifiedRecord.quadrant =
      ((classifyTable [⟨"X", 9, 9⟩, ⟨"Y", 3, 4⟩, ⟨"Z", -1, -1⟩] 0 0)[1]?).map
        ClassifiedRecord.quadrant :=
  C10_name_noninterference.2 [⟨"A", 3, 4⟩] [⟨"X", 9, 9⟩, ⟨"Y", 3, 4⟩, ⟨"Z", -1, -1⟩]
    0 0 0 1 ⟨"A", 3, 4⟩ ⟨"Y", 3, 4⟩ (by decide) (by decide) rfl rfl

/-- C2 counterexample: a row whose name is the empty string, with numeric
scores, is NOT excluded: dropna drops only missing values, so the row is
classified, plotted and exported, contradicting the claim that rows with
an empty name are excluded. -/
theorem C2_empty_name_retained :
    filterRows [⟨some "", Cell.num 1, Cell.num 2⟩] = [⟨"", 1, 2⟩] ∧
    plottedPoints (filterRows [⟨some "", Cell.num 1, Cell.num 2⟩]) 0 0 =
      [⟨"", 1, 2, "Critical"⟩] ∧
    exportRows "S" 0 0 (filterRows [⟨some "", Cell.num 1, Cell.num 2⟩]) =
      [exportHeader, ["S", "", "1", "2", "Critical"]] := by
  decide

/-- C2 as amended: a row is excluded from classification, plotting and
export when its name is missing or either score fails numeric coercion;
the downstream views of a table containing such a row equal those of the
table without it. -/
theorem C2_row_exclusion (pre post : List RawRow) (r : RawRow) (scenario : String)
    (x0 y0 : ℚ)
    (h : r.factor = none ∨ toNumeric r.dependence = none ∨ toNumeric r.influence = none) :
    filterRows (pre ++ r :: post) = filterRows pre ++ filterRows post ∧
    plottedPoints (filterRows (pre ++ r :: post)) x0 y0 =
      plottedPoints (filterRows pre ++ filterRows post) x0 y0 ∧
    exportRows scenario x0 y0 (filterRows (pre ++ r :: post)) =
      exportRows scenario x0 y0 (filterRows pre ++ filterRows post) := by
  have hc : coerceRow r = none := by
    rcases h with h | h | h
    · simp [coerceRow, h]
    · cases hf : r.factor <;> simp [coerceRow, hf, h]
    · cases hf : r.factor <;> cases hd : toNumeric r.dependence <;>
        simp [coerceRow, hf, hd, h]
  have h1 : filterRows (pre ++ r :: post) = filterRows pre ++ filterRows post := by
    simp [filterRows, List.filterMap_append, List.filterMap_cons, hc]
  exact ⟨h1, by rw [h1], by rw [h1]⟩

/-- C2 witness: a row with the non-numeric score text abc contributes
nothing to the filtered table. -/
theorem C2_row_exclusion_witness :
    filterRows [⟨some "X", Cell.text "abc", Cell.num 1⟩, ⟨some "B", Cell.num 8, Cell.num 11⟩] =
      filterRows [] ++ filterRows [⟨some "B", Cell.num 8, Cell.num 11⟩] :=
  (C2_row_exclusion [] [⟨some "B", Cell.num 8, Cell.num 11⟩]
    ⟨some "X", Cell.text "abc", Cell.num 1⟩ "S" 0 0 (Or.inr (Or.inl (by decide)))).1

/-- C8: CSV round-trip for the example table: for every data row of the
export at thresholds x0, y0, parsing the two score cells back to numbers
and reclassifying with the same thresholds reproduces exactly the
Quadrant cell of that row. -/
theorem C8_csv_roundtrip (x0 y0 : ℚ) :
    ((exportRows "UK Creative Industries" x0 y0 exampleRecords).tail).map
        (fun cells =>
          (cells[2]?.bind parseNumeric).bind fun d =>
            (cells[3]?.bind parseNumeric).map fun i => classify_quadrant d i x0 y0)
      = ((exportRows "UK Creative Industries" x0 y0 exampleRecords).tail).map
          (fun cells => cells[4]?) := by
  have h5 : parseNumeric (renderScore (-5 : ℚ)) = some (-5 : ℚ) := by decide
  have h13 : parseNumeric (renderScore (13 : ℚ)) = some (13 : ℚ) := by decide
  have h8 : parseNumeric (renderScore (8 : ℚ)) = some (8 : ℚ) := by decide
  have h11 : parseNumeric (renderScore (11 : ℚ)) = some (11 : ℚ) := by decide
  have h9 : parseNumeric (renderScore (9 : ℚ)) = some (9 : ℚ) := by decide
  have h7 : parseNumeric (renderScore (7 : ℚ)) = some (7 : ℚ) := by decide
  have h3 : parseNumeric (renderScore (-3 : ℚ)) = some (-3 : ℚ) := by decide
  simp [exportRows, exampleRecords, exportRow, h5, h13, h8, h11, h9, h7, h3]
